import Mathlib

/-!
Verification of the no-cache development HTTP server (`dev-server.py`).

The script subclasses the standard library's static-file request handler,
overriding `end_headers` (to append three cache-busting headers before the
buffered headers are flushed) and `log_message` (to write a timestamped
access-log line to standard error).  The `__main__` block binds a TCP
server on the fixed port 8080, prints a startup banner, serves forever,
and on `KeyboardInterrupt` prints a confirmation and exits with status 0.

Definitions marked `Modelled from the spec:` embed behavior of the Python
standard library (or of the interpreter/OS), which is delegated to by the
script and is not part of this repository's source; they follow the spec's
description of that delegated behavior.  All other definitions are
translated directly from `dev-server.py`.
-/

namespace DevServer

/-- `PORT = 8080` from `dev-server.py` line 10. -/
def PORT : Nat := 8080

/-- A response header: a name/value pair, as passed to `send_header`. -/
structure Header where
  name : String
  value : String
deriving DecidableEq, Repr

/-- The three cache-busting headers that the `end_headers` override sends,
in source order (lines 15-17). -/
def noCacheHeaders : List Header :=
  [⟨"Cache-Control", "no-store, no-cache, must-revalidate, max-age=0"⟩,
   ⟨"Pragma", "no-cache"⟩,
   ⟨"Expires", "0"⟩]

/-- The `end_headers` override (lines 13-18): each `send_header` call
appends one header to the buffer of headers the base handler has already
prepared, and `super().end_headers()` then flushes the whole buffer.  The
resulting transmitted header list is the prepared buffer followed by the
three no-cache headers. -/
def end_headers (prepared : List Header) : List Header :=
  prepared ++ noCacheHeaders

/-- An HTTP response as prepared by the handler: status code, header
buffer, body bytes (bytes as naturals). -/
structure Response where
  status : Nat
  headers : List Header
  body : List Nat
deriving DecidableEq, Repr

/-- Flushing a response through the overridden `end_headers`: the header
buffer is replaced by `end_headers` of itself; status and body are
untouched. -/
def sendResponse (r : Response) : Response :=
  { r with headers := end_headers r.headers }

/-- The `log_message` override (lines 20-25): formats
`"%s - - [%s] %s\n" % (address_string, date_time_string, message)`. -/
def log_message (address_string date_time_string message : String) : String :=
  address_string ++ " - - [" ++ date_time_string ++ "] " ++ message ++ "\n"

/-- An HTTP request line: method, path, protocol version. -/
structure Request where
  method : String
  path : String
  version : String
deriving DecidableEq, Repr

/-- Modelled from the spec: the standard request-line summary that the base
handler passes to `log_message` for a handled request — the request line in
quotes followed by the status code and the size field (the base handler's
`log_request`, which is standard-library code not in this repository). -/
def requestSummary (req : Request) (status : Nat) (size : String) : String :=
  "\"" ++ req.method ++ " " ++ req.path ++ " " ++ req.version ++ "\" "
    ++ toString status ++ " " ++ size

/-- Modelled from the spec: the base handler emits exactly one access-log
call per handled request, passing the request-line summary (standard-library
code not in this repository: `log_request` is invoked once from
`send_response`). -/
def requestLogLines (addr ts : String) (req : Request) (status : Nat)
    (size : String) : List String :=
  [log_message addr ts (requestSummary req status size)]

/-- Outcome of looking a request path up in the server's working
directory. -/
inductive FileLookup where
  | found (bytes : List Nat)
  | missing
  | denied
deriving DecidableEq, Repr

/-- The file extension of a path: the characters after the last dot, or
the empty string when the path has no dot. -/
def extensionOf (path : String) : String :=
  if '.' ∈ path.data then
    ⟨(path.data.reverse.takeWhile (fun c => c ≠ '.')).reverse⟩
  else ""

/-- Modelled from the spec: MIME-type inference by file extension
("MIME sniffing by extension"), as performed by the standard
static-file-serving capability (not part of this repository). -/
def guess_type (path : String) : String :=
  match extensionOf path with
  | "html" => "text/html"
  | "css" => "text/css"
  | "js" => "text/javascript"
  | "png" => "image/png"
  | "jpg" => "image/jpeg"
  | "gif" => "image/gif"
  | "svg" => "image/svg+xml"
  | _ => "application/octet-stream"

/-- Modelled from the spec: the standard static-file-serving capability the
handler delegates to (not part of this repository): map the request path to
a file under the working directory; if found respond 200 with the inferred
content type and the file bytes; if not found respond 404; on a permission
error respond 403.  The function is total: every lookup outcome yields an
HTTP response, never a process crash. -/
def serveFile (path : String) (l : FileLookup) : Response :=
  match l with
  | .found bytes =>
    { status := 200,
      headers := [⟨"Content-Type", guess_type path⟩,
                  ⟨"Content-Length", toString bytes.length⟩],
      body := bytes }
  | .missing =>
    { status := 404,
      headers := [⟨"Content-Type", "text/html;charset=utf-8"⟩],
      body := [] }
  | .denied =>
    { status := 403,
      headers := [⟨"Content-Type", "text/html;charset=utf-8"⟩],
      body := [] }

/-- Handling a GET request: resolve the path against the filesystem and
flush the response through the overridden `end_headers`. -/
def handleGET (fs : String → FileLookup) (req : Request) : Response :=
  sendResponse (serveFile req.path (fs req.path))

/-- The arguments of the four startup `print` calls of the `__main__`
block (lines 31-34), in order.  Each `print(s)` writes `s` followed by a
newline to standard output; note the fourth argument itself ends in a
newline, so it produces a trailing blank line. -/
def startupPrints : List String :=
  ["🚀 Dev server running at http://localhost:8080",
   "📁 Serving from: ('0.0.0.0', 8080)",
   "⚡ No-cache headers enabled - images/CSS will always reload fresh",
   "Press Ctrl+C to stop\n"]

/-- The argument of the single shutdown `print` call (line 39): two leading
newlines, then the confirmation message. -/
def shutdownPrints : List String :=
  ["\n\n✅ Server stopped"]

/-- The text a sequence of `print` calls writes to standard output: each
argument followed by a newline. -/
def printedText (prints : List String) : String :=
  String.join (prints.map (fun s => s ++ "\n"))

/-- The number of complete lines in a piece of terminal output, i.e. the
number of newline characters in it. -/
def lineCount (s : String) : Nat :=
  s.data.count '\n'

/-- The terminating scenarios of the `__main__` block: the configured port
is already bound when `TCPServer` is constructed, or a `KeyboardInterrupt`
(SIGINT) arrives while `serve_forever` runs. -/
inductive MainEvent where
  | bindBusy
  | interrupt
deriving DecidableEq, Repr

/-- Observable outcome of the process: exit status, the arguments of the
`print` calls made to standard output in order, whether a diagnostic was
written to standard error, and whether the listening socket ends up
closed. -/
structure ProcOutcome where
  exitCode : Nat
  stdoutPrints : List String
  stderrDiagnostic : Bool
  socketClosed : Bool
deriving DecidableEq, Repr

/-- The `__main__` block (lines 27-40).  Modelled from the spec for the
delegated parts (standard-library and interpreter behavior not in this
repository): a `TCPServer` whose port is already in use raises an uncaught
bind error, which terminates the process with a nonzero exit status and a
printed diagnostic before any banner line is printed; SIGINT surfaces as
`KeyboardInterrupt` inside `serve_forever`, the `except` clause prints the
confirmation, `sys.exit(0)` exits with status 0, and the `with` statement
closes the listening socket on the way out. -/
def pyMain : MainEvent → ProcOutcome
  | .bindBusy =>
    { exitCode := 1, stdoutPrints := [],
      stderrDiagnostic := true, socketClosed := true }
  | .interrupt =>
    { exitCode := 0, stdoutPrints := startupPrints ++ shutdownPrints,
      stderrDiagnostic := false, socketClosed := true }

/-- The server's bind configuration, `("", PORT)` (line 30), as a function
of the process's command-line arguments: the script never reads them, so
the configuration is the same for every argument vector.  The empty host
string means all interfaces. -/
def serverConfig (_argv : List String) : String × Nat :=
  ("", PORT)

/-- The module-level global names bound in `dev-server.py`: the top-level
imports (lines 6-8) bind `http`, `socketserver` and `datetime`, and the
top level also binds `PORT` and the handler class.  The name `sys` is bound
only by the `import sys` on line 28, which executes only when the module
runs as a script (`__name__ == '__main__'`). -/
def moduleGlobals (runAsMain : Bool) : List String :=
  ["http", "socketserver", "datetime", "PORT", "NoCacheHTTPRequestHandler"]
    ++ (if runAsMain then ["sys"] else [])

/-- Result of calling `log_message`: Python resolves the free name `sys`
against the module globals at call time; if it is unbound the call raises
`NameError`, otherwise the formatted line is written to standard error. -/
inductive LogResult where
  | nameError
  | emitted (line : String)
deriving DecidableEq, Repr

/-- Executing the body of `log_message` under a given set of module
globals: line 22 reads the global `sys`, so the call raises `NameError`
when `sys` is unbound and otherwise writes the formatted line. -/
def log_message_call (globals : List String) (addr ts msg : String) :
    LogResult :=
  if "sys" ∈ globals then .emitted (log_message addr ts msg) else .nameError

/-- Claim C1: whatever headers the base handler has prepared, and hence for
every response regardless of path, status code, or content type, the
transmitted header list contains `Cache-Control`, `Pragma`, and `Expires`
with exactly the specified values. -/
theorem no_cache_headers_always_present (prepared : List Header) :
    (⟨"Cache-Control", "no-store, no-cache, must-revalidate, max-age=0"⟩ : Header)
        ∈ end_headers prepared
      ∧ (⟨"Pragma", "no-cache"⟩ : Header) ∈ end_headers prepared
      ∧ (⟨"Expires", "0"⟩ : Header) ∈ end_headers prepared := by
  refine ⟨?_, ?_, ?_⟩ <;> simp [end_headers, noCacheHeaders]

/-- Claim C2: a handled request produces the single stderr line
`<address> - - [<date-time>] <request-line summary>`, and when the address,
timestamp, and summary contain no newline the output is exactly one line
(it contains exactly one newline, the terminator). -/
theorem access_log_single_line_format (addr ts : String) (req : Request)
    (status : Nat) (size : String)
    (h1 : addr.data.count '\n' = 0) (h2 : ts.data.count '\n' = 0)
    (h3 : (requestSummary req status size).data.count '\n' = 0) :
    requestLogLines addr ts req status size
        = [addr ++ " - - [" ++ ts ++ "] "
            ++ requestSummary req status size ++ "\n"]
      ∧ lineCount (log_message addr ts (requestSummary req status size)) = 1 := by
  refine ⟨rfl, ?_⟩
  simp [lineCount, log_message, String.data_append, List.count_append, h1, h2, h3]

/-- Witness for `access_log_single_line_format` at a concrete request. -/
theorem access_log_single_line_format_witness :
    requestLogLines "127.0.0.1" "12/Oct/2026 10:00:00"
          ⟨"GET", "/index.html", "HTTP/1.1"⟩ 200 "-"
        = ["127.0.0.1" ++ " - - [" ++ "12/Oct/2026 10:00:00" ++ "] "
            ++ requestSummary ⟨"GET", "/index.html", "HTTP/1.1"⟩ 200 "-" ++ "\n"]
      ∧ lineCount (log_message "127.0.0.1" "12/Oct/2026 10:00:00"
            (requestSummary ⟨"GET", "/index.html", "HTTP/1.1"⟩ 200 "-")) = 1 :=
  access_log_single_line_format "127.0.0.1" "12/Oct/2026 10:00:00"
    ⟨"GET", "/index.html", "HTTP/1.1"⟩ 200 "-"
    (by decide) (by decide) (by decide)

/-- Claim C3: when the request path resolves to an existing regular file,
the handled response has status 200, body equal to the file's bytes, and a
`Content-Type` inferred from the file's extension. -/
theorem existing_file_served_ok (fs : String → FileLookup) (req : Request)
    (bytes : List Nat) (h : fs req.path = .found bytes) :
    (handleGET fs req).status = 200
      ∧ (handleGET fs req).body = bytes
      ∧ (⟨"Content-Type", guess_type req.path⟩ : Header)
          ∈ (handleGET fs req).headers := by
  refine ⟨?_, ?_, ?_⟩ <;>
    simp [handleGET, sendResponse, serveFile, end_headers, h]

/-- Witness for `existing_file_served_ok`: a two-byte `/index.html`. -/
theorem existing_file_served_ok_witness :
    (handleGET
        (fun p => if p = "/index.html" then .found [60, 104] else .missing)
        ⟨"GET", "/index.html", "HTTP/1.1"⟩).status = 200
      ∧ (handleGET
          (fun p => if p = "/index.html" then .found [60, 104] else .missing)
          ⟨"GET", "/index.html", "HTTP/1.1"⟩).body = [60, 104]
      ∧ (⟨"Content-Type", guess_type "/index.html"⟩ : Header)
          ∈ (handleGET
              (fun p => if p = "/index.html" then .found [60, 104] else .missing)
              ⟨"GET", "/index.html", "HTTP/1.1"⟩).headers :=
  existing_file_served_ok
    (fun p => if p = "/index.html" then .found [60, 104] else .missing)
    ⟨"GET", "/index.html", "HTTP/1.1"⟩ [60, 104] (by decide)

/-- Claim C4: the status of a handled request is fully determined by the
path lookup — 200 when found, 404 when missing, 403 on a permission error —
and the handler is a total function, so every lookup outcome yields an HTTP
response rather than terminating the server. -/
theorem lookup_status_characterization (fs : String → FileLookup)
    (req : Request) :
    (handleGET fs req).status =
      (match fs req.path with
       | .found _ => 200
       | .missing => 404
       | .denied => 403) := by
  cases h : fs req.path <;> simp [handleGET, sendResponse, serveFile, h]

/-- Claim C5: when the configured port is already bound at startup, the
process terminates with a nonzero exit status (1), a diagnostic goes to
standard error, and no banner is printed. -/
theorem bind_busy_exits_nonzero :
    (pyMain .bindBusy).exitCode = 1
      ∧ (pyMain .bindBusy).exitCode ≠ 0
      ∧ (pyMain .bindBusy).stderrDiagnostic = true
      ∧ (pyMain .bindBusy).stdoutPrints = [] := by decide

/-- Claim C6: an interrupt while serving leads to exit status 0, a closed
listening socket, and a final print whose text is the shutdown
confirmation. -/
theorem interrupt_clean_exit :
    (pyMain .interrupt).exitCode = 0
      ∧ (pyMain .interrupt).socketClosed = true
      ∧ (pyMain .interrupt).stdoutPrints.getLast? = some "\n\n✅ Server stopped" := by
  decide

/-- Claim C7 counterexample: the startup banner is not exactly three lines —
the `__main__` block makes four `print` calls, and the printed startup text
contains five lines (the fourth argument ends in a newline of its own). -/
theorem startup_banner_not_three_lines :
    startupPrints.length ≠ 3 ∧ lineCount (printedText startupPrints) ≠ 3 := by
  decide

/-- Claim C7 as amended: at startup the program makes four `print` calls
(URL, serving directory, feature notice, and a Ctrl+C hint ending in an
extra newline), producing five stdout lines; at shutdown it makes exactly
one `print` call, whose argument starts with two newlines and ends with the
confirmation message, producing three lines of which the last is the single
confirmation line. -/
theorem startup_and_shutdown_print_shape :
    startupPrints.length = 4
      ∧ lineCount (printedText startupPrints) = 5
      ∧ shutdownPrints = ["\n\n✅ Server stopped"]
      ∧ lineCount (printedText shutdownPrints) = 3
      ∧ (pyMain .interrupt).stdoutPrints = startupPrints ++ shutdownPrints := by
  decide

/-- Claim C8: for every command-line argument vector the server binds the
same address — the empty host (all interfaces) and the fixed constant port
8080; no flag or argument can change it. -/
theorem fixed_port_all_interfaces (argv : List String) :
    serverConfig argv = ("", 8080) ∧ PORT = 8080 :=
  ⟨rfl, rfl⟩

/-- Claim C9: flushing a response through the overridden `end_headers`
leaves the status and body unchanged and rewrites the header list to
exactly the previously prepared headers followed, in order, by
`Cache-Control`, `Pragma`, `Expires` — every prepared header survives
unmodified and nothing is removed. -/
theorem end_headers_appends_only (r : Response) :
    (sendResponse r).status = r.status
      ∧ (sendResponse r).body = r.body
      ∧ (sendResponse r).headers = r.headers ++
          [⟨"Cache-Control", "no-store, no-cache, must-revalidate, max-age=0"⟩,
           ⟨"Pragma", "no-cache"⟩,
           ⟨"Expires", "0"⟩] :=
  ⟨rfl, rfl, rfl⟩

/-- Claim C10: under the globals of a plain import (no `__main__` block run)
the name `sys` is unbound, so any `log_message` call raises `NameError`;
when run as a script, `sys` is bound and the call emits the formatted
line. -/
theorem log_message_name_resolution (addr ts msg : String) :
    log_message_call (moduleGlobals false) addr ts msg = .nameError
      ∧ log_message_call (moduleGlobals true) addr ts msg
          = .emitted (addr ++ " - - [" ++ ts ++ "] " ++ msg ++ "\n") :=
  ⟨rfl, rfl⟩

end DevServer
